import Mathlib

/-!
Verification of the Snake-Rush game core (src/snake_rush.py, src/snakerush.py).

Shallow embedding conventions:
* Pixel coordinates are `Int`; Python's `%` on a positive modulus agrees with
  Lean's `Int.emod` (both return a value in `[0, modulus)`).
* Screen dimensions `W`, `H` (pixels) are parameters: in the source they come
  from the display (`SCREEN_WIDTH`, `SCREEN_HEIGHT`).
* Randomness (`random.randint` draws inside `spawn_food`, and the reroll loop
  that moves a food off the snake body) is modelled by passing the foods that
  the spawner produces as an explicit `stream : List Food`; each `spawn_food()`
  call in `Game.update` takes the next food from the stream.  `datetime.now()`
  is modelled by a `now : String` parameter.
* File I/O (`save_scores`, `load_scores`) and rendering/audio are out the
  model's scope; `add_score` models the in-memory list transformation.
-/

namespace SnakeRush

/-- BLOCK_SIZE from src/snake_rush.py line 67 (the sibling variant
src/snakerush.py uses 40; the grid-alignment theorem below is proved for an
arbitrary positive block size). -/
def BLOCK_SIZE : Int := 30

/-- BASE_FPS from src/snake_rush.py line 92. -/
def BASE_FPS : Nat := 8

/-- MAX_FPS from src/snake_rush.py line 93. -/
def MAX_FPS : Nat := 20

/-- SPEED_INTERVAL from src/snake_rush.py line 94. -/
def SPEED_INTERVAL : Nat := 5

/-- State of class Snake (src/snake_rush.py lines 205-242), dropping the
render-only `color` field. -/
structure Snake where
  positions : List (Int × Int)
  direction : Int × Int
  next_direction : Int × Int
  length : Nat
  score : Nat
deriving DecidableEq

/-- Snake.reset (src/snake_rush.py lines 209-217): one segment at the centre
cell, moving right.  `grid_w`, `grid_h` are GRID_WIDTH and GRID_HEIGHT. -/
def Snake.reset (grid_w grid_h : Int) : Snake :=
  { positions := [(grid_w / 2 * BLOCK_SIZE, grid_h / 2 * BLOCK_SIZE)]
    direction := (1, 0)
    next_direction := (1, 0)
    length := 1
    score := 0 }

/-- Snake.get_head_position (src/snake_rush.py lines 219-220).  `positions` is
nonempty in every reachable state; the default is never hit there. -/
def Snake.get_head_position (s : Snake) : Int × Int :=
  s.positions.headD (0, 0)

/-- Snake.update (src/snake_rush.py lines 222-238): commit the buffered
direction, advance the head with toroidal wrap, report self-collision
(`true` = game over) without touching `positions`, else prepend the new head
and pop the tail when over the target length.  `W`, `H` are SCREEN_WIDTH and
SCREEN_HEIGHT in pixels. -/
def Snake.update (W H : Int) (s0 : Snake) : Bool × Snake :=
  let s : Snake := { s0 with direction := s0.next_direction }
  let head := s.get_head_position
  let new_x := (head.1 + s.direction.1 * BLOCK_SIZE) % W
  let new_y := (head.2 + s.direction.2 * BLOCK_SIZE) % H
  if (new_x, new_y) ∈ s.positions.tail then
    (true, s)
  else
    let ps := (new_x, new_y) :: s.positions
    (false, { s with positions := if ps.length > s.length then ps.dropLast else ps })

/-- The new head cell that `Snake.update` computes: current head plus the
committed (buffered) direction, wrapped modulo the playfield. -/
def Snake.newHead (W H : Int) (s : Snake) : Int × Int :=
  ((s.get_head_position.1 + s.next_direction.1 * BLOCK_SIZE) % W,
   (s.get_head_position.2 + s.next_direction.2 * BLOCK_SIZE) % H)

/-- Snake.change_direction (src/snake_rush.py lines 240-242): accept the
request unless it is the exact componentwise negation of the current
direction. -/
def Snake.change_direction (s : Snake) (d : Int × Int) : Snake :=
  if (d.1 * -1, d.2 * -1) ≠ s.direction then
    { s with next_direction := d }
  else
    s

/-- One leaderboard record (src/snake_rush.py lines 178-182). -/
structure Entry where
  score : Int
  length : Int
  date : String
deriving DecidableEq

/-- Python's `min(entry['score'] for entry in scores)` over a nonempty list
(src/snake_rush.py line 203); the `[]` case is junk, never used by
`is_high_score`. -/
def minScore : List Entry → Int
  | [] => 0
  | [e] => e.score
  | e :: f :: rest => min e.score (minScore (f :: rest))

/-- LeaderBoard.is_high_score (src/snake_rush.py lines 200-203). -/
def is_high_score (scores : List Entry) (score : Int) : Bool :=
  if scores.isEmpty then
    true
  else
    decide (scores.length < 10) || decide (score > minScore scores)

/-- Stable descending insertion by score: the new element goes in front of the
first strictly-smaller score, after any equal scores already present —
matching the order Python's stable `sort(key=score, reverse=True)` gives a
freshly appended element. -/
def insertEntry (e : Entry) : List Entry → List Entry
  | [] => [e]
  | f :: rest => if f.score ≤ e.score then e :: f :: rest else f :: insertEntry e rest

/-- Stable sort descending by score, modelling
`scores.sort(key=lambda x: x['score'], reverse=True)`
(src/snake_rush.py line 186). -/
def sortByScoreDesc : List Entry → List Entry
  | [] => []
  | e :: rest => insertEntry e (sortByScoreDesc rest)

/-- LeaderBoard.add_score (src/snake_rush.py lines 176-192): no-op unless
`score > 0`; otherwise append an entry stamped `now`, sort descending by
score, and truncate to the top 10 (the synchronous `save_scores()` call is
file I/O, outside the model). -/
def add_score (score length : Int) (now : String) (scores : List Entry) : List Entry :=
  if score > 0 then
    let scores1 := scores ++ [{ score := score, length := length, date := now }]
    let scores2 := sortByScoreDesc scores1
    if scores2.length > 10 then scores2.take 10 else scores2
  else
    scores

/-- State of class Food (src/snake_rush.py lines 257-291), dropping the
render-only `color` field. -/
structure Food where
  type : Nat
  position : Int × Int
  timer : Int
  active : Bool
  points : Nat
deriving DecidableEq

/-- Food.__init__ (src/snake_rush.py lines 258-278) for a given (randomly
drawn) position: tier 1 is the default (1 point, no timer); tiers 2-4 get
timers 150/100/80 and points 2/3/5. -/
def Food.make (food_type : Nat) (pos : Int × Int) : Food :=
  let base : Food := { type := food_type, position := pos, timer := 0, active := true, points := 1 }
  if food_type = 2 then { base with timer := 150, points := 2 }
  else if food_type = 3 then { base with timer := 100, points := 3 }
  else if food_type = 4 then { base with timer := 80, points := 5 }
  else base

/-- Food.update (src/snake_rush.py lines 286-291): tiers above 1 count down
and deactivate at zero; tier 1 never expires.  The session keeps a food
exactly when the ticked food is still active. -/
def Food.tick (f : Food) : Food :=
  if f.type > 1 then
    let t := f.timer - 1
    { f with timer := t, active := if t ≤ 0 then false else f.active }
  else
    f

/-- pygame.Rect.colliderect for two axis-aligned `B × B` squares at `a` and
`b` (strict overlap, touching edges do not collide), as used in Game.update
(src/snake_rush.py lines 848-852). -/
def colliderect (B : Int) (a b : Int × Int) : Bool :=
  decide (a.1 < b.1 + B) && decide (b.1 < a.1 + B) &&
  decide (a.2 < b.2 + B) && decide (b.2 < a.2 + B)

/-- Growth per food tier on consumption (src/snake_rush.py lines 860-867).
The sibling variant src/snakerush.py lines 588-595 uses 1/1/2/3 instead. -/
def growthAmount : Nat → Nat
  | 1 => 1
  | 2 => 2
  | 3 => 3
  | 4 => 4
  | _ => 0

/-- Game.update_speed's formula (src/snake_rush.py lines 679-681). -/
def update_speed_val (score : Nat) : Nat :=
  min (BASE_FPS + score / SPEED_INTERVAL) MAX_FPS

/-- Accumulator for the consumption loop of Game.update: foods kept so far,
foods spawned so far, remaining spawn stream, and the running snake
score/target-length and session speed. -/
structure TickAcc where
  kept : List Food
  spawned : List Food
  stream : List Food
  score : Nat
  length : Nat
  speed : Nat
deriving DecidableEq

/-- One iteration of the consumption loop (src/snake_rush.py lines 850-870):
a food whose square overlaps the head square (and is active) is consumed —
score rises by its points, target length by its tier's growth, one replacement
food is spawned, and the speed is recomputed from the new score; otherwise the
food is kept. -/
def consumeStep (head : Int × Int) (acc : TickAcc) (f : Food) : TickAcc :=
  if colliderect BLOCK_SIZE head f.position && f.active then
    let score' := acc.score + f.points
    { kept := acc.kept
      spawned := acc.spawned ++ [acc.stream.headD (Food.make 1 (0, 0))]
      stream := acc.stream.tail
      score := score'
      length := acc.length + growthAmount f.type
      speed := update_speed_val score' }
  else
    { acc with kept := acc.kept ++ [f] }

/-- The `while len(self.foods) < min_foods: self.spawn_food()` top-up loop
(src/snake_rush.py lines 872-874), drawing from the spawn stream; theorems
supply streams long enough that exhaustion never occurs. -/
def topUp (minFoods : Nat) (stream : List Food) (foods : List Food) : List Food :=
  match stream with
  | [] => foods
  | f :: rest => if foods.length < minFoods then topUp minFoods rest (foods ++ [f]) else foods

/-- Session state of class Game (src/snake_rush.py lines 589-874), restricted
to the fields the simulation core reads and writes (buttons, fonts and the
audio flags are UI glue). -/
structure Game where
  snake : Snake
  foods : List Food
  game_over : Bool
  paused : Bool
  current_speed : Nat
  leaderboard : List Entry
  score_submitted : Bool
  title_screen : Bool
  show_leaderboard : Bool
deriving DecidableEq

/-- Game.update_speed (src/snake_rush.py lines 679-681). -/
def Game.update_speed (g : Game) : Game :=
  { g with current_speed := update_speed_val g.snake.score }

/-- Game.update (src/snake_rush.py lines 825-874).  In a menu-ish state
(title/game-over/paused/leaderboard) only the one-shot score submission runs;
otherwise the snake advances (terminal collision just sets the game-over
flag), expired foods are purged, the consumption loop runs over a copy of the
food list, and the food count is topped up to `min(2 + score // 15, 4)`. -/
def Game.update (W H : Int) (now : String) (stream : List Food) (g : Game) : Game :=
  if g.title_screen || g.game_over || g.paused || g.show_leaderboard then
    if g.game_over && !g.score_submitted then
      let lb :=
        if is_high_score g.leaderboard (g.snake.score : Int) then
          add_score (g.snake.score : Int) (g.snake.length : Int) now g.leaderboard
        else
          g.leaderboard
      { g with leaderboard := lb, score_submitted := true }
    else
      g
  else
    let r := g.snake.update W H
    if r.1 then
      { g with snake := r.2, game_over := true }
    else
      let snake1 := r.2
      let foods1 := (g.foods.map Food.tick).filter (fun f => f.active)
      let head := snake1.get_head_position
      let acc0 : TickAcc :=
        { kept := [], spawned := [], stream := stream,
          score := snake1.score, length := snake1.length, speed := g.current_speed }
      let acc := foods1.foldl (consumeStep head) acc0
      let snake2 := { snake1 with score := acc.score, length := acc.length }
      let minFoods := min (2 + acc.score / 15) 4
      { g with snake := snake2,
               foods := topUp minFoods acc.stream (acc.kept ++ acc.spawned),
               current_speed := acc.speed }

/-- Game.get_food_spawn_chances (src/snake_rush.py lines 647-657). -/
def get_food_spawn_chances (score : Nat) : List Nat :=
  if score < 10 then [85, 15, 0, 0]
  else if score < 25 then [70, 25, 5, 0]
  else if score < 50 then [60, 25, 12, 3]
  else [50, 30, 15, 5]

/-- The table of §4.3 of the spec, with the bands written exactly as the spec
words them (s < 10, 10 ≤ s ≤ 24, 25 ≤ s ≤ 49, s ≥ 50); to be compared with
`get_food_spawn_chances` above. -/
def spec_spawn_chances (score : Nat) : List Nat :=
  if score < 10 then [85, 15, 0, 0]
  else if score ≤ 24 then [70, 25, 5, 0]
  else if score ≤ 49 then [60, 25, 12, 3]
  else [50, 30, 15, 5]

/-! Concrete states used by the scenario parts of the claims.  A playfield of
150 × 150 pixels is a 5 × 5 grid of 30-pixel cells; 300 × 300 is 10 × 10. -/

/-- A playing-state session on the 5 × 5 grid: fresh snake at the centre cell
(60, 60) heading right, a tier-1 food on the very next cell (90, 60) and a
second one far away — the state of a run in which the first spawn happened to
land directly in the snake's path. -/
def c2g0 : Game :=
  { snake := Snake.reset 5 5
    foods := [Food.make 1 (90, 60), Food.make 1 (0, 0)]
    game_over := false, paused := false, current_speed := BASE_FPS
    leaderboard := [], score_submitted := false
    title_screen := false, show_leaderboard := false }

/-- Spawn stream for the `c2g0` tick: replacement foods land on far-away
cells. -/
def c2stream : List Food := [Food.make 1 (0, 30), Food.make 1 (0, 60), Food.make 1 (0, 90)]

/-- A playing-state session on the 10 × 10 grid: fresh snake at (150, 150)
heading right, with tier-1 foods on the next three cells of its path. -/
def c7g0 : Game :=
  { snake := Snake.reset 10 10
    foods := [Food.make 1 (180, 150), Food.make 1 (210, 150), Food.make 1 (240, 150)]
    game_over := false, paused := false, current_speed := BASE_FPS
    leaderboard := [], score_submitted := false
    title_screen := false, show_leaderboard := false }

/-- First tick of the three-pickup scenario (spawned food lands far away). -/
def c7g1 : Game := Game.update 300 300 "t1" [Food.make 1 (0, 0)] c7g0

/-- Second tick of the three-pickup scenario. -/
def c7g2 : Game := Game.update 300 300 "t2" [Food.make 1 (0, 30)] c7g1

/-- Third tick of the three-pickup scenario. -/
def c7g3 : Game := Game.update 300 300 "t3" [Food.make 1 (0, 60)] c7g2

/-- A full leaderboard: 10 entries, sorted descending, unique minimum score
12. -/
def lb10 : List Entry :=
  [⟨99, 10, "a"⟩, ⟨80, 9, "a"⟩, ⟨70, 8, "a"⟩, ⟨60, 7, "a"⟩, ⟨50, 6, "a"⟩,
   ⟨45, 5, "a"⟩, ⟨40, 4, "a"⟩, ⟨30, 3, "a"⟩, ⟨20, 2, "a"⟩, ⟨12, 1, "a"⟩]

/-- A session that has just entered the game-over state with score 5, the
score not yet submitted. -/
def c9g : Game :=
  { snake := { positions := [(90, 60), (60, 60)], direction := (1, 0),
               next_direction := (1, 0), length := 2, score := 5 }
    foods := [Food.make 1 (0, 0)]
    game_over := true, paused := false, current_speed := BASE_FPS
    leaderboard := [⟨3, 2, "b"⟩], score_submitted := false
    title_screen := false, show_leaderboard := false }

/-- A snake that is about to run into its own body: the head at (60, 60)
moves right onto (90, 60), which its tail occupies. -/
def c1Snake : Snake :=
  { positions := [(60, 60), (60, 90), (90, 90), (90, 60)]
    direction := (1, 0), next_direction := (1, 0), length := 4, score := 3 }

/-- `sortedDesc l` states that `l` is sorted descending by score (ties in any
order), the stored-collection invariant of §3 of the spec. -/
def sortedDesc (l : List Entry) : Prop :=
  List.Pairwise (fun a b => b.score ≤ a.score) l

/-- Inserting grows the list by one. -/
theorem insertEntry_length (e : Entry) (l : List Entry) :
    (insertEntry e l).length = l.length + 1 := by
  induction l with
  | nil => rfl
  | cons f rest ih =>
    unfold insertEntry
    split
    · rfl
    · simp [ih]

/-- Sorting preserves the length. -/
theorem sortByScoreDesc_length (l : List Entry) :
    (sortByScoreDesc l).length = l.length := by
  induction l with
  | nil => rfl
  | cons e rest ih =>
    unfold sortByScoreDesc
    rw [insertEntry_length, ih, List.length_cons]

/-- Membership in an insertion. -/
theorem mem_insertEntry (x e : Entry) (l : List Entry) :
    x ∈ insertEntry e l ↔ x = e ∨ x ∈ l := by
  induction l with
  | nil => simp [insertEntry]
  | cons f rest ih =>
    unfold insertEntry
    split
    · simp
    · simp only [List.mem_cons, ih]
      tauto

/-- Inserting into a descending-sorted list keeps it sorted. -/
theorem insertEntry_sortedDesc (e : Entry) (l : List Entry) (h : sortedDesc l) :
    sortedDesc (insertEntry e l) := by
  induction l with
  | nil => simp [insertEntry, sortedDesc]
  | cons f rest ih =>
    rcases List.pairwise_cons.mp h with ⟨hf, hrest⟩
    unfold insertEntry
    split
    case isTrue hle =>
      refine List.pairwise_cons.mpr ⟨?_, h⟩
      intro b hb
      rcases List.mem_cons.mp hb with rfl | hb
      · exact hle
      · exact le_trans (hf b hb) hle
    case isFalse hgt =>
      refine List.pairwise_cons.mpr ⟨?_, ih hrest⟩
      intro b hb
      rcases (mem_insertEntry b e rest).mp hb with rfl | hb
      · exact le_of_lt (lt_of_not_le hgt)
      · exact hf b hb

/-- The insertion sort always produces a descending-sorted list. -/
theorem sortByScoreDesc_sortedDesc (l : List Entry) :
    sortedDesc (sortByScoreDesc l) := by
  induction l with
  | nil => simp [sortByScoreDesc, sortedDesc]
  | cons e rest ih => exact insertEntry_sortedDesc e _ ih

/-- `Snake.update` never changes the target length. -/
theorem snake_update_length (W H : Int) (s : Snake) :
    ((s.update W H).2).length = s.length := by
  unfold Snake.update
  dsimp only
  split <;> rfl

/-- `Snake.update` keeps the segment count at or below the target length. -/
theorem snake_update_positions_le (W H : Int) (s : Snake)
    (h : s.positions.length ≤ s.length) :
    ((s.update W H).2).positions.length ≤ s.length := by
  unfold Snake.update
  dsimp only
  split
  · exact h
  · dsimp only
    split
    case isTrue h2 =>
      simp only [List.length_dropLast, List.length_cons]
      omega
    case isFalse h2 =>
      simp only [List.length_cons]
      simp only [List.length_cons, gt_iff_lt, not_lt] at h2
      omega

/-- When the segment count equals the target before the move, it still equals
the (unchanged) target after `Snake.update`: the prepend is compensated by the
tail pop. -/
theorem snake_update_positions_eq (W H : Int) (s : Snake)
    (h : s.positions.length = s.length) :
    ((s.update W H).2).positions.length = s.length := by
  unfold Snake.update
  dsimp only
  split
  · exact h
  · dsimp only
    split
    case isTrue h2 =>
      simp only [List.length_dropLast, List.length_cons]
      omega
    case isFalse h2 =>
      simp only [List.length_cons, gt_iff_lt, not_lt] at h2 ⊢
      omega

/-- One consumption-loop step never decreases the running target length. -/
theorem consumeStep_length_le (head : Int × Int) (acc : TickAcc) (f : Food) :
    acc.length ≤ (consumeStep head acc f).length := by
  unfold consumeStep
  split
  · exact Nat.le_add_right _ _
  · exact le_refl _

/-- The whole consumption loop never decreases the running target length. -/
theorem foldl_consume_length_le (head : Int × Int) (l : List Food) :
    ∀ acc : TickAcc, acc.length ≤ (List.foldl (consumeStep head) acc l).length := by
  induction l with
  | nil => intro acc; exact le_refl _
  | cons f rest ih =>
    intro acc
    rw [List.foldl_cons]
    exact le_trans (consumeStep_length_le head acc f) (ih _)

/-- C1: `Snake.update` signals game over (returns `true`) iff the new head
cell — head plus committed direction, wrapped modulo the playfield — lies in
the pre-move body excluding the head (`positions[1:]`); and on that terminal
path the segment list is completely unchanged. -/
theorem c1_collision_iff (W H : Int) (s : Snake) :
    ((s.update W H).1 = true ↔ s.newHead W H ∈ s.positions.tail) ∧
    ((s.update W H).1 = true → (s.update W H).2.positions = s.positions) := by
  unfold Snake.update Snake.newHead Snake.get_head_position
  dsimp only
  split
  case isTrue h => exact ⟨⟨fun _ => h, fun _ => rfl⟩, fun _ => rfl⟩
  case isFalse h =>
    refine ⟨⟨fun hc => absurd hc (by simp), fun hm => absurd hm h⟩, fun hc => absurd hc (by simp)⟩

/-- C1 witness: the theorem applied to a concrete snake whose next cell is
occupied by its own tail. -/
theorem c1_collision_iff_witness :
    ((c1Snake.update 150 150).1 = true ↔
      c1Snake.newHead 150 150 ∈ c1Snake.positions.tail) ∧
    ((c1Snake.update 150 150).1 = true →
      (c1Snake.update 150 150).2.positions = c1Snake.positions) :=
  c1_collision_iff 150 150 c1Snake

/-- C3: `change_direction r` installs `r` as the buffered direction exactly
when `r` is not the componentwise negation of the current direction, changing
nothing else; a reversal request leaves the snake entirely unchanged. -/
theorem c3_change_direction (s : Snake) (r : Int × Int) :
    ((r.1 * -1, r.2 * -1) ≠ s.direction →
      s.change_direction r = { s with next_direction := r }) ∧
    ((r.1 * -1, r.2 * -1) = s.direction → s.change_direction r = s) := by
  unfold Snake.change_direction
  split
  case isTrue h => exact ⟨fun _ => rfl, fun he => absurd he h⟩
  case isFalse h => exact ⟨fun hn => absurd (not_not.mp h) hn, fun _ => rfl⟩

/-- C3 witness: for the freshly reset snake (direction right), a perpendicular
request is installed and a leftward (reversal) request is a no-op. -/
theorem c3_change_direction_witness :
    Snake.change_direction (Snake.reset 5 5) (0, 1) =
      { Snake.reset 5 5 with next_direction := (0, 1) } ∧
    Snake.change_direction (Snake.reset 5 5) (-1, 0) = Snake.reset 5 5 :=
  ⟨(c3_change_direction (Snake.reset 5 5) (0, 1)).1 (by decide),
   (c3_change_direction (Snake.reset 5 5) (-1, 0)).2 (by decide)⟩

/-- C4: `get_food_spawn_chances` realises exactly the four-band step table of
the spec (bands phrased as the spec words them), every returned table sums to
100, and the six tier-boundary scores map to the expected tables. -/
theorem c4_spawn_chances :
    (∀ s : Nat, get_food_spawn_chances s = spec_spawn_chances s ∧
      (get_food_spawn_chances s).sum = 100) ∧
    get_food_spawn_chances 9 = [85, 15, 0, 0] ∧
    get_food_spawn_chances 10 = [70, 25, 5, 0] ∧
    get_food_spawn_chances 24 = [70, 25, 5, 0] ∧
    get_food_spawn_chances 25 = [60, 25, 12, 3] ∧
    get_food_spawn_chances 49 = [60, 25, 12, 3] ∧
    get_food_spawn_chances 50 = [50, 30, 15, 5] := by
  refine ⟨?_, by decide, by decide, by decide, by decide, by decide, by decide⟩
  intro s
  unfold get_food_spawn_chances spec_spawn_chances
  constructor
  · split_ifs <;> first | rfl | omega
  · split_ifs <;> rfl

/-- C10: on an empty leaderboard `is_high_score` accepts every integer score,
including zero and negatives, yet `add_score` with a nonpositive score adds
nothing — a score can qualify while its submission is a no-op. -/
theorem c10_empty_leaderboard :
    (∀ s : Int, is_high_score [] s = true) ∧
    (∀ (s L : Int) (d : String), s ≤ 0 → add_score s L d [] = []) := by
  constructor
  · intro s; rfl
  · intro s L d hs
    unfold add_score
    rw [if_neg (by omega)]

/-- C10 witness: score 0 (and -5) qualify on the empty board while adding 0
changes nothing. -/
theorem c10_empty_leaderboard_witness :
    is_high_score [] (-5) = true ∧ add_score 0 7 "d" [] = [] :=
  ⟨c10_empty_leaderboard.1 (-5), c10_empty_leaderboard.2 0 7 "d" (by decide)⟩

/-- C5: `is_high_score` accepts exactly when fewer than 10 entries are stored
or the score strictly exceeds the stored minimum; on the full board `lb10`
(unique minimum 12), 12 is rejected, 13 accepted, and after `add_score 13` no
entry with score 12 remains. -/
theorem c5_is_high_score :
    (∀ (l : List Entry) (s : Int),
      is_high_score l s = true ↔ (l.length < 10 ∨ (l ≠ [] ∧ minScore l < s))) ∧
    is_high_score lb10 12 = false ∧
    is_high_score lb10 13 = true ∧
    ((add_score 13 7 "2025-10-12 00:00" lb10).all fun e => decide (e.score ≠ 12)) = true ∧
    (add_score 13 7 "2025-10-12 00:00" lb10).length = 10 := by
  refine ⟨?_, by decide, by decide, by decide, by decide⟩
  intro l s
  cases l with
  | nil => simp [is_high_score]
  | cons e rest =>
    simp only [is_high_score, List.isEmpty_cons, Bool.false_eq_true, if_false,
      Bool.or_eq_true, decide_eq_true_eq, gt_iff_lt, ne_eq, reduceCtorEq,
      not_false_eq_true, true_and]

/-- C5 witness: the characterisation applied at the concrete full board and
score 13. -/
theorem c5_is_high_score_witness :
    is_high_score lb10 13 = true ↔ (lb10.length < 10 ∨ (lb10 ≠ [] ∧ minScore lb10 < 13)) :=
  c5_is_high_score.1 lb10 13

/-- C6: under the stored-collection invariant (at most 10 entries, sorted
descending), `add_score` is a no-op for nonpositive scores; for a positive
score it appends one entry (then truncates past 10), and the result always has
at most 10 entries and is sorted descending by score. -/
theorem c6_add_score_invariant (l : List Entry) (s L : Int) (d : String)
    (hlen : l.length ≤ 10) (hsort : sortedDesc l) :
    (s ≤ 0 → add_score s L d l = l) ∧
    (0 < s → (add_score s L d l).length = min (l.length + 1) 10) ∧
    (add_score s L d l).length ≤ 10 ∧
    sortedDesc (add_score s L d l) := by
  unfold add_score
  by_cases hs : s > 0
  · rw [if_pos hs]
    dsimp only
    refine ⟨fun hle => absurd hs (by omega), fun _ => ?_, ?_, ?_⟩
    · split
      next h2 =>
        rw [List.length_take, sortByScoreDesc_length, List.length_append]
        simp [Nat.min_comm]
      next h2 =>
        rw [sortByScoreDesc_length] at h2 ⊢
        rw [List.length_append] at h2 ⊢
        simp at h2 ⊢
        omega
    · split
      next h2 =>
        rw [List.length_take]
        exact min_le_left _ _
      next h2 =>
        rw [sortByScoreDesc_length, List.length_append] at h2 ⊢
        simp at h2 ⊢
        omega
    · split
      next h2 =>
        exact List.Pairwise.sublist (List.take_sublist _ _) (sortByScoreDesc_sortedDesc _)
      next h2 =>
        exact sortByScoreDesc_sortedDesc _
  · rw [if_neg hs]
    exact ⟨fun _ => rfl, fun hpos => absurd hpos hs, hlen, hsort⟩

/-- C6 witness: the theorem applied to the full sorted board `lb10` and a
positive score. -/
theorem c6_add_score_invariant_witness :
    ((13 : Int) ≤ 0 → add_score 13 7 "d" lb10 = lb10) ∧
    ((0 : Int) < 13 → (add_score 13 7 "d" lb10).length = min (lb10.length + 1) 10) ∧
    (add_score 13 7 "d" lb10).length ≤ 10 ∧
    sortedDesc (add_score 13 7 "d" lb10) :=
  c6_add_score_invariant lb10 13 7 "d" (by decide)
    (by unfold sortedDesc lb10; decide)

/-- C8: for two BLOCK-sized squares whose corners are grid-aligned multiples
of a positive block size, pygame's rectangle-overlap test `colliderect` —
the consumption test the session applies to the head and each food — succeeds
exactly when the two cells are equal. -/
theorem c8_colliderect_iff (B i j k l : Int) (hB : 0 < B) :
    colliderect B (i * B, j * B) (k * B, l * B) = true ↔
      ((i * B, j * B) : Int × Int) = (k * B, l * B) := by
  unfold colliderect
  simp only [Bool.and_eq_true, decide_eq_true_eq, Prod.mk.injEq]
  constructor
  · rintro ⟨⟨⟨h1, h2⟩, h3⟩, h4⟩
    rw [← add_one_mul] at h1 h2 h3 h4
    have hik : i = k := by
      have p1 := (mul_lt_mul_right hB).mp h1
      have p2 := (mul_lt_mul_right hB).mp h2
      omega
    have hjl : j = l := by
      have p3 := (mul_lt_mul_right hB).mp h3
      have p4 := (mul_lt_mul_right hB).mp h4
      omega
    subst hik; subst hjl
    exact ⟨rfl, rfl⟩
  · rintro ⟨hx, hy⟩
    rw [hx, hy]
    refine ⟨⟨⟨by linarith, by linarith⟩, by linarith⟩, by linarith⟩

/-- C8 witness: equal grid cells collide (block size 30, cell (2, 3)). -/
theorem c8_colliderect_iff_witness :
    colliderect BLOCK_SIZE (2 * BLOCK_SIZE, 3 * BLOCK_SIZE) (2 * BLOCK_SIZE, 3 * BLOCK_SIZE) = true ↔
      ((2 * BLOCK_SIZE, 3 * BLOCK_SIZE) : Int × Int) = (2 * BLOCK_SIZE, 3 * BLOCK_SIZE) :=
  c8_colliderect_iff BLOCK_SIZE 2 3 2 3 (by decide)

/-- C2 counterexample: in the playing state `c2g0` (fresh snake, segment
count 1 = target 1) one completed, non-terminal tick eats a tier-1 food; the
tick pops the tail before the growth is applied, so afterwards the segment
count is 1 while the target length is 2 — strictly less than the target and
not equal to the new target, contrary to the claim. -/
theorem c2_counterexample :
    (Game.update 150 150 "now" c2stream c2g0).game_over = false ∧
    (Game.update 150 150 "now" c2stream c2g0).snake.positions.length = 1 ∧
    (Game.update 150 150 "now" c2stream c2g0).snake.length = 2 ∧
    (Game.update 150 150 "now" c2stream c2g0).snake.positions.length <
      (Game.update 150 150 "now" c2stream c2g0).snake.length := by
  decide

/-- C2 (amended): a session tick never pushes the segment count above the
target length; when the counts are equal before the tick, the tick leaves the
segment count at the pre-tick target, so equality with the (new) target holds
after the tick exactly when the target did not change (no growth) — after a
growth tick the segment count stays at the old target, below the new one. -/
theorem c2_segments_vs_target (W H : Int) (now : String) (stream : List Food) (g : Game)
    (h : g.snake.positions.length ≤ g.snake.length) :
    (Game.update W H now stream g).snake.positions.length ≤
      (Game.update W H now stream g).snake.length ∧
    (g.snake.positions.length = g.snake.length →
      (Game.update W H now stream g).snake.positions.length = g.snake.length ∧
      ((Game.update W H now stream g).snake.length = g.snake.length →
        (Game.update W H now stream g).snake.positions.length =
          (Game.update W H now stream g).snake.length)) := by
  unfold Game.update
  split
  · split
    · dsimp only
      exact ⟨h, fun he => ⟨he, fun _ => he⟩⟩
    · exact ⟨h, fun he => ⟨he, fun _ => he⟩⟩
  · dsimp only
    split
    · dsimp only
      have hl := snake_update_length W H g.snake
      refine ⟨?_, fun he => ⟨?_, fun h2 => ?_⟩⟩
      · rw [hl]
        exact snake_update_positions_le W H g.snake h
      · exact snake_update_positions_eq W H g.snake he
      · rw [hl]
        exact snake_update_positions_eq W H g.snake he
    · dsimp only
      have hl := snake_update_length W H g.snake
      refine ⟨?_, fun he => ⟨?_, fun h2 => ?_⟩⟩
      · exact le_trans
          (le_of_le_of_eq (snake_update_positions_le W H g.snake h) hl.symm)
          (foldl_consume_length_le _ _
            ⟨[], [], stream, (Snake.update W H g.snake).2.score,
              (Snake.update W H g.snake).2.length, g.current_speed⟩)
      · exact snake_update_positions_eq W H g.snake he
      · rw [h2]
        exact snake_update_positions_eq W H g.snake he

/-- C2 witness: the amended theorem applied to the concrete playing state
`c2g0` (whose segment count 1 equals its target 1). -/
theorem c2_segments_vs_target_witness :
    (Game.update 150 150 "now" c2stream c2g0).snake.positions.length ≤
      (Game.update 150 150 "now" c2stream c2g0).snake.length ∧
    (c2g0.snake.positions.length = c2g0.snake.length →
      (Game.update 150 150 "now" c2stream c2g0).snake.positions.length = c2g0.snake.length ∧
      ((Game.update 150 150 "now" c2stream c2g0).snake.length = c2g0.snake.length →
        (Game.update 150 150 "now" c2stream c2g0).snake.positions.length =
          (Game.update 150 150 "now" c2stream c2g0).snake.length)) :=
  c2_segments_vs_target 150 150 "now" c2stream c2g0 (by decide)

/-- C7: `update_speed` sets the session speed to
`min(BASE_SPEED + score // SPEED_INTERVAL, MAX_SPEED)` with the constants
8/5/20; and from a fresh snake (length 1, score 0), three consecutive
tier-1 pickups end at target length 4, score 3 and speed still at the base
value 8. -/
theorem c7_speed_and_scenario :
    (∀ g : Game, (Game.update_speed g).current_speed = min (8 + g.snake.score / 5) 20) ∧
    c7g0.snake.length = 1 ∧ c7g0.snake.score = 0 ∧ c7g0.current_speed = 8 ∧
    c7g3.snake.length = 4 ∧ c7g3.snake.score = 3 ∧
    c7g3.current_speed = 8 ∧ c7g3.current_speed = BASE_FPS ∧ c7g3.game_over = false := by
  refine ⟨fun g => rfl, by decide, by decide, by decide, by decide, by decide,
    by decide, by decide, by decide⟩

/-- C9: in the game-over state with the score not yet submitted, one session
update offers the score to the leaderboard (checking `is_high_score`, adding
via `add_score` when it qualifies) and sets `score_submitted`; every further
update while the state remains game-over is the identity, so the submission
happens exactly once. -/
theorem c9_submit_once (W H : Int) (now now2 : String) (stream stream2 : List Food)
    (g : Game) (hover : g.game_over = true) (hsub : g.score_submitted = false) :
    (Game.update W H now stream g).score_submitted = true ∧
    (Game.update W H now stream g).leaderboard =
      (if is_high_score g.leaderboard (g.snake.score : Int) then
        add_score (g.snake.score : Int) (g.snake.length : Int) now g.leaderboard
      else g.leaderboard) ∧
    Game.update W H now2 stream2 (Game.update W H now stream g) =
      Game.update W H now stream g := by
  have hfix : ∀ (now3 : String) (stream3 : List Food) (g2 : Game),
      g2.game_over = true → g2.score_submitted = true →
      Game.update W H now3 stream3 g2 = g2 := by
    intro now3 stream3 g2 hg2 hs2
    unfold Game.update
    rw [hg2, hs2]
    simp
  have h1 : Game.update W H now stream g =
      { g with
        leaderboard :=
          if is_high_score g.leaderboard (g.snake.score : Int) then
            add_score (g.snake.score : Int) (g.snake.length : Int) now g.leaderboard
          else g.leaderboard,
        score_submitted := true } := by
    unfold Game.update
    rw [hover, hsub]
    simp
  rw [h1]
  exact ⟨rfl, rfl, hfix now2 stream2 _ hover rfl⟩

/-- C9 witness: the theorem applied at a concrete just-game-over session. -/
theorem c9_submit_once_witness :
    (Game.update 150 150 "d1" [] c9g).score_submitted = true ∧
    (Game.update 150 150 "d1" [] c9g).leaderboard =
      (if is_high_score c9g.leaderboard (c9g.snake.score : Int) then
        add_score (c9g.snake.score : Int) (c9g.snake.length : Int) "d1" c9g.leaderboard
      else c9g.leaderboard) ∧
    Game.update 150 150 "d2" [] (Game.update 150 150 "d1" [] c9g) =
      Game.update 150 150 "d1" [] c9g :=
  c9_submit_once 150 150 "d1" "d2" [] [] c9g rfl rfl

end SnakeRush
